import Mathlib

/-!
# Verification of the Unity Catalog workshop provisioning scripts

Shallow embedding of the four lab notebooks (`001-Catalog-Creation.py`,
`003-Table-Creation-Management.py`, `004-Access-Control-Permissions.py`,
`005-Fine-Grained-Permissions.py`).  Each notebook is a linear sequence of
SQL statements issued against an external metastore; we model the statement
sequences and the metastore state they manipulate, and prove the spec's
testable properties about them.
-/

/-! ## Identity Resolver (lab 001, lines 26-34)

`user_id = w.current_user.me().user_name.split('@')[0]`.

We model logins as `List Char` and translate Python's `str.split(sep)` for a
single-character separator, then take the first field, exactly as the source
does.
-/

/-- Python `s.split(c)` for a one-character separator `c`: splits on every
occurrence of `c`, keeping empty fields; on the empty string it returns one
empty field, matching `"".split('@') == ['']`. -/
def splitOnChar (c : Char) : List Char → List (List Char)
  | [] => [[]]
  | x :: xs =>
    match splitOnChar c xs with
    | [] => [[]]
    | f :: fs => if x = c then [] :: f :: fs else (x :: f) :: fs

/-- `user_id = user_name.split('@')[0]` (lab 001, line 31). -/
def user_id (user_name : List Char) : List Char :=
  (splitOnChar '@' user_name).headD []

/-- `catalog_name = user_id` (lab 001, line 59). -/
def catalog_name (user_name : List Char) : List Char :=
  user_id user_name

theorem splitOnChar_ne_nil (c : Char) (s : List Char) : splitOnChar c s ≠ [] := by
  cases s with
  | nil => simp [splitOnChar]
  | cons x xs =>
    simp only [splitOnChar]
    split
    · simp
    · split <;> simp

theorem user_id_append (u d : List Char) (hu : '@' ∉ u) :
    user_id (u ++ '@' :: d) = u := by
  induction u with
  | nil =>
    simp only [user_id, List.nil_append, splitOnChar]
    cases h : splitOnChar '@' d <;> simp
  | cons x xs ih =>
    have hx : x ≠ '@' := fun h => hu (h ▸ List.mem_cons_self x xs)
    have hxs : '@' ∉ xs := fun h => hu (List.mem_cons_of_mem x h)
    have ih' := ih hxs
    simp only [user_id, List.cons_append, splitOnChar]
    cases h : splitOnChar '@' (xs ++ '@' :: d) with
    | nil => exact absurd h (splitOnChar_ne_nil _ _)
    | cons f fs =>
      simp only [user_id, h, List.headD_cons] at ih'
      simp [hx, ih']

/-- C2: for every principal identity `u@domain` (with `u` free of `'@'`),
the derived namespace identifier `user_id` equals `u`, the substring of the
login preceding the first `'@'`, and this identifier is used as the catalog
name (`catalog_name = user_id`). -/
theorem c2_derive_namespace (u domain : List Char) (hu : '@' ∉ u) :
    user_id (u ++ '@' :: domain) = u ∧
    catalog_name (u ++ '@' :: domain) = u := by
  have h := user_id_append u domain hu
  exact ⟨h, h⟩

/-- C2 witness: `derive_namespace("jdoe@example.com") = "jdoe"`. -/
theorem c2_derive_namespace_witness :
    '@' ∉ "jdoe".data ∧
    user_id ("jdoe".data ++ '@' :: "example.com".data) = "jdoe".data ∧
    catalog_name ("jdoe".data ++ '@' :: "example.com".data) = "jdoe".data :=
  ⟨by decide, c2_derive_namespace "jdoe".data "example.com".data (by decide)⟩

/-! ## Namespace Builder (lab 001, lines 65-145)

The notebook issues, in order:
  `USE CATALOG {catalog_name}`              (line 65)
  `CREATE SCHEMA IF NOT EXISTS sales`       (lines 112-113)
  `USE SCHEMA sales`                        (line 119)
  `CREATE VOLUME IF NOT EXISTS tracking`    (lines 145-146)
No `CREATE CATALOG` statement is ever issued: the notebook says "A catalog
has been created for you as part of this setup" and shows
`CREATE CATALOG IF NOT EXISTS` only inside a markdown comment (lines 51-54).

We model the metastore's namespace objects and the statement semantics. -/

/-- Namespace portion of the metastore state. Schemas are keyed by their
catalog, volumes by their catalog and schema. -/
structure NsState where
  catalogs : List String
  schemas : List (String × String)
  volumes : List (String × String × String)
  currentCatalog : Option String
  currentSchema : Option String
deriving DecidableEq, Repr

inductive NsError
  | catalogNotFound
  | schemaNotFound
  | noCurrentCatalog
  | noCurrentSchema
deriving DecidableEq, Repr

/-- The namespace statements the lab issues (plus `CREATE CATALOG IF NOT
EXISTS`, which the notebook only documents in markdown; see `c1`/`c3`). -/
inductive NsStmt
  | createCatalogIfNotExists (name : String)
  | useCatalog (name : String)
  | createSchemaIfNotExists (name : String)
  | useSchema (name : String)
  | createVolumeIfNotExists (name : String)
deriving DecidableEq, Repr

/-- Semantics of one namespace statement against the metastore.
`CREATE ... IF NOT EXISTS` is a no-op when the object exists; creating a
child under a missing parent, or `USE` of a missing object, fails. -/
def execNs (st : NsState) : NsStmt → Except NsError NsState
  | .createCatalogIfNotExists n =>
    if n ∈ st.catalogs then .ok st
    else .ok { st with catalogs := n :: st.catalogs }
  | .useCatalog n =>
    if n ∈ st.catalogs then
      .ok { st with currentCatalog := some n, currentSchema := none }
    else .error .catalogNotFound
  | .createSchemaIfNotExists n =>
    match st.currentCatalog with
    | none => .error .noCurrentCatalog
    | some c =>
      if c ∈ st.catalogs then
        if (c, n) ∈ st.schemas then .ok st
        else .ok { st with schemas := (c, n) :: st.schemas }
      else .error .catalogNotFound
  | .useSchema n =>
    match st.currentCatalog with
    | none => .error .noCurrentCatalog
    | some c =>
      if (c, n) ∈ st.schemas then .ok { st with currentSchema := some n }
      else .error .schemaNotFound
  | .createVolumeIfNotExists n =>
    match st.currentCatalog, st.currentSchema with
    | none, _ => .error .noCurrentCatalog
    | some _, none => .error .noCurrentSchema
    | some c, some s =>
      if (c, s) ∈ st.schemas then
        if (c, s, n) ∈ st.volumes then .ok st
        else .ok { st with volumes := (c, s, n) :: st.volumes }
      else .error .schemaNotFound

/-- Run a statement sequence, aborting at the first platform error. -/
def runNs (st : NsState) : List NsStmt → Except NsError NsState
  | [] => .ok st
  | s :: rest =>
    match execNs st s with
    | .ok st' => runNs st' rest
    | .error e => .error e

/-- The namespace statements lab 001 actually issues, in source order. -/
def lab001Stmts (catalogName : String) : List NsStmt :=
  [ .useCatalog catalogName,
    .createSchemaIfNotExists "sales",
    .useSchema "sales",
    .createVolumeIfNotExists "tracking" ]

/-- Does a statement list contain a `CREATE CATALOG IF NOT EXISTS`? -/
def issuesCreateCatalog (stmts : List NsStmt) : Bool :=
  stmts.any fun s =>
    match s with
    | .createCatalogIfNotExists _ => true
    | _ => false

/-- Metastore as lab 001 finds it: the user's catalog pre-created by the
workshop setup, nothing else. -/
def initialNsState (catalogName : String) : NsState :=
  { catalogs := [catalogName], schemas := [], volumes := [],
    currentCatalog := none, currentSchema := none }

/-- Is a statement one of the `CREATE ... IF NOT EXISTS` operations? -/
def isCreateStmt : NsStmt → Bool
  | .createCatalogIfNotExists _ => true
  | .createSchemaIfNotExists _ => true
  | .createVolumeIfNotExists _ => true
  | _ => false

/-- C1 counterexample: lab 001 never issues a `CREATE CATALOG IF NOT EXISTS`
statement (it appears only inside a markdown comment, lines 51-54), so the
Namespace Builder does not issue create-if-not-exists operations for all
three namespace objects. -/
theorem c1_counterexample :
    issuesCreateCatalog (lab001Stmts "jdoe") = false := by rfl

/-- C1 amended: the Namespace Builder issues idempotent create-if-not-exists
operations for the schema and the volume only, in dependency order (schema
before volume); the catalog is assumed pre-created and is merely selected
with `USE CATALOG`. Together with `USE SCHEMA`, the run sets the active
namespace context, and from a metastore holding just the pre-created catalog
it succeeds and leaves the schema and volume in place. -/
theorem c1_namespace_builder (cat : String) :
    issuesCreateCatalog (lab001Stmts cat) = false ∧
    (lab001Stmts cat).filter isCreateStmt =
      [.createSchemaIfNotExists "sales", .createVolumeIfNotExists "tracking"] ∧
    runNs (initialNsState cat) (lab001Stmts cat) =
      .ok { catalogs := [cat], schemas := [(cat, "sales")],
            volumes := [(cat, "sales", "tracking")],
            currentCatalog := some cat, currentSchema := some "sales" } := by
  refine ⟨rfl, rfl, ?_⟩
  simp [runNs, execNs, lab001Stmts, initialNsState]

/-- C3: each `ensure_*` operation is idempotent: if the first invocation
succeeds with state `st'`, invoking it again with identical arguments from
`st'` is a no-op returning `st'` unchanged, with no duplicate-object error.
(`ensure_catalog` is issued only in the notebook's markdown; its
`CREATE CATALOG IF NOT EXISTS` statement is modelled from that snippet and
from the spec.) -/
theorem c3_ensure_idempotent (name : String) (st st' : NsState) :
    (execNs st (.createCatalogIfNotExists name) = .ok st' →
      execNs st' (.createCatalogIfNotExists name) = .ok st') ∧
    (execNs st (.createSchemaIfNotExists name) = .ok st' →
      execNs st' (.createSchemaIfNotExists name) = .ok st') ∧
    (execNs st (.createVolumeIfNotExists name) = .ok st' →
      execNs st' (.createVolumeIfNotExists name) = .ok st') := by
  refine ⟨?_, ?_, ?_⟩ <;> intro h
  · by_cases hm : name ∈ st.catalogs
    · simp only [execNs, if_pos hm, Except.ok.injEq] at h
      subst h
      simp [execNs, hm]
    · simp only [execNs, if_neg hm, Except.ok.injEq] at h
      subst h
      simp [execNs]
  · cases hc : st.currentCatalog with
    | none => simp [execNs, hc] at h
    | some c =>
      by_cases h1 : c ∈ st.catalogs
      · by_cases h2 : (c, name) ∈ st.schemas
        · simp only [execNs, hc, if_pos h1, if_pos h2, Except.ok.injEq] at h
          subst h
          simp [execNs, hc, h1, h2]
        · simp only [execNs, hc, if_pos h1, if_neg h2, Except.ok.injEq] at h
          subst h
          simp [execNs, hc, h1]
      · simp [execNs, hc, h1] at h
  · cases hc : st.currentCatalog with
    | none => simp [execNs, hc] at h
    | some c =>
      cases hs : st.currentSchema with
      | none => simp [execNs, hc, hs] at h
      | some s =>
        by_cases h1 : (c, s) ∈ st.schemas
        · by_cases h2 : (c, s, name) ∈ st.volumes
          · simp only [execNs, hc, hs, if_pos h1, if_pos h2, Except.ok.injEq] at h
            subst h
            simp [execNs, hc, hs, h1, h2]
          · simp only [execNs, hc, hs, if_pos h1, if_neg h2, Except.ok.injEq] at h
            subst h
            simp [execNs, hc, hs, h1]
        · simp [execNs, hc, hs, h1] at h

/-- A metastore state in which catalog, schema and volume named `tracking`
all already exist, used to exercise `c3_ensure_idempotent` concretely. -/
def c3State : NsState :=
  { catalogs := ["tracking"], schemas := [("tracking", "tracking")],
    volumes := [("tracking", "tracking", "tracking")],
    currentCatalog := some "tracking", currentSchema := some "tracking" }

/-- C3 witness: each `ensure_*` invocation on a state where the object
already exists returns the state unchanged and raises no error. -/
theorem c3_ensure_idempotent_witness :
    execNs c3State (.createCatalogIfNotExists "tracking") = .ok c3State ∧
    execNs c3State (.createSchemaIfNotExists "tracking") = .ok c3State ∧
    execNs c3State (.createVolumeIfNotExists "tracking") = .ok c3State := by
  have h := c3_ensure_idempotent "tracking" c3State c3State
  exact ⟨h.1 (by rfl), h.2.1 (by rfl), h.2.2 (by rfl)⟩

/-! ## Dataset Materializer: the fact table (lab 003, lines 91-105)

```sql
CREATE OR REPLACE TABLE {catalog}.{schema}.sales_fact AS
SELECT row_number() OVER (ORDER BY l.l_orderkey, l.l_linenumber) as sales_key,
       o.o_orderkey as order_key, l.l_linenumber as lineitem_key,
       c.c_custkey as customer_key, s.s_suppkey as supplier_key,
       o.o_orderdate as date_key, l.l_extendedprice as sales_amount,
       l.l_quantity as quantity
FROM samples.tpch.lineitem l JOIN orders o ... JOIN customers c ... JOIN suppliers s ...
```

We model the join result (the input snapshot) as a list of rows and the
`row_number() OVER (ORDER BY ...)` as numbering a sort of the snapshot by
`(order_key, lineitem_key)`. -/

/-- One row of the joined snapshot feeding `sales_fact`. The join equates
`o.o_orderkey` with `l.l_orderkey`, so `order_key` doubles as the ordering
key's first component. -/
structure JoinedRow where
  order_key : Int
  lineitem_key : Int
  customer_key : Int
  supplier_key : Int
  date_key : Int
  sales_amount : Int
  quantity : Int
deriving DecidableEq, Repr

/-- The `ORDER BY` key `(l_orderkey, l_linenumber)`. -/
def orderingKey (r : JoinedRow) : Int × Int :=
  (r.order_key, r.lineitem_key)

/-- `ORDER BY l.l_orderkey, l.l_linenumber` as a boolean comparison. -/
def rowLe (a b : JoinedRow) : Bool :=
  decide (a.order_key < b.order_key) ||
    (decide (a.order_key = b.order_key) && decide (a.lineitem_key ≤ b.lineitem_key))

structure SalesFactRow where
  sales_key : Nat
  order_key : Int
  lineitem_key : Int
  customer_key : Int
  supplier_key : Int
  date_key : Int
  sales_amount : Int
  quantity : Int
deriving DecidableEq, Repr

/-- The `sales_fact` materialization: sort the snapshot by the ordering key
and assign `sales_key = row_number()` starting from 1. -/
def sales_fact (snapshot : List JoinedRow) : List SalesFactRow :=
  (snapshot.mergeSort rowLe).enum.map fun p =>
    { sales_key := p.1 + 1, order_key := p.2.order_key,
      lineitem_key := p.2.lineitem_key, customer_key := p.2.customer_key,
      supplier_key := p.2.supplier_key, date_key := p.2.date_key,
      sales_amount := p.2.sales_amount, quantity := p.2.quantity }

theorem rowLe_trans (a b c : JoinedRow) :
    rowLe a b = true → rowLe b c = true → rowLe a c = true := by
  simp only [rowLe, Bool.or_eq_true, Bool.and_eq_true, decide_eq_true_eq]
  omega

theorem rowLe_total (a b : JoinedRow) : (rowLe a b || rowLe b a) = true := by
  simp only [rowLe, Bool.or_eq_true, Bool.and_eq_true, decide_eq_true_eq]
  omega

/-- Strict ordering on rows by the ordering key. -/
def rowLt (a b : JoinedRow) : Prop :=
  a.order_key < b.order_key ∨
    (a.order_key = b.order_key ∧ a.lineitem_key < b.lineitem_key)

theorem rowLt_of_rowLe_of_key_ne {a b : JoinedRow}
    (hle : rowLe a b = true) (hne : orderingKey a ≠ orderingKey b) :
    rowLt a b := by
  simp only [rowLe, Bool.or_eq_true, Bool.and_eq_true, decide_eq_true_eq] at hle
  simp only [orderingKey, ne_eq, Prod.mk.injEq, not_and] at hne
  rcases hle with h | ⟨h1, h2⟩
  · exact Or.inl h
  · exact Or.inr ⟨h1, lt_of_le_of_ne h2 (hne h1)⟩

/-- `mergeSort` by the ordering key is permutation-invariant when the
ordering keys are pairwise distinct. -/
theorem mergeSort_rowLe_perm_invariant {s1 s2 : List JoinedRow}
    (hperm : s1.Perm s2) (hkeys : (s1.map orderingKey).Nodup) :
    s1.mergeSort rowLe = s2.mergeSort rowLe := by
  haveI : IsAntisymm JoinedRow rowLt := by
    constructor
    intro a b hab hba
    exfalso
    rcases hab with h | ⟨h1, h2⟩ <;> rcases hba with h' | ⟨h1', h2'⟩ <;> omega
  have sortedLt : ∀ (s : List JoinedRow), (s.map orderingKey).Nodup →
      List.Sorted rowLt (s.mergeSort rowLe) := by
    intro s hnd
    have hle : (s.mergeSort rowLe).Pairwise (fun a b => rowLe a b = true) :=
      List.sorted_mergeSort rowLe_trans rowLe_total s
    have hperm' : List.Perm ((s.mergeSort rowLe).map orderingKey) (s.map orderingKey) :=
      (List.mergeSort_perm s rowLe).map orderingKey
    have hnd' : ((s.mergeSort rowLe).map orderingKey).Nodup := hperm'.nodup_iff.mpr hnd
    have hkeyne : (s.mergeSort rowLe).Pairwise
        (fun a b => orderingKey a ≠ orderingKey b) :=
      (List.pairwise_map).mp hnd'
    exact (hle.and hkeyne).imp fun h => rowLt_of_rowLe_of_key_ne h.1 h.2
  have hkeys2 : (s2.map orderingKey).Nodup :=
    ((hperm.map orderingKey).nodup_iff).mp hkeys
  exact List.eq_of_perm_of_sorted
    ((List.mergeSort_perm s1 rowLe).trans (hperm.trans (List.mergeSort_perm s2 rowLe).symm))
    (sortedLt s1 hkeys) (sortedLt s2 hkeys2)

/-- The assigned `sales_key`s of any snapshot are exactly `1..N`. -/
theorem sales_fact_keys (snapshot : List JoinedRow) :
    (sales_fact snapshot).map (fun r => r.sales_key) =
      List.range' 1 snapshot.length := by
  unfold sales_fact
  rw [List.map_map]
  have : ((fun r : SalesFactRow => r.sales_key) ∘
      fun p : Nat × JoinedRow =>
        ({ sales_key := p.1 + 1, order_key := p.2.order_key,
           lineitem_key := p.2.lineitem_key, customer_key := p.2.customer_key,
           supplier_key := p.2.supplier_key, date_key := p.2.date_key,
           sales_amount := p.2.sales_amount, quantity := p.2.quantity } : SalesFactRow)) =
      (fun i => i + 1) ∘ Prod.fst := rfl
  rw [this, ← List.map_map, List.enum_map_fst, List.length_mergeSort,
    List.range'_eq_map_range]
  simp [Nat.add_comm]

/-- C4: for a fixed input snapshot, the fact-table build assigns
`sales_key` by deterministic row-numbering over `(order_key, lineitem_key)`:
the assigned keys are exactly the gap-free sequence `1..N` (`N` the row
count), and re-running on the same snapshot — even presented in a different
row order, provided the ordering keys are distinct — reproduces the same
assignment. -/
theorem c4_sales_fact_keys_gapfree_deterministic (s1 s2 : List JoinedRow)
    (hperm : s1.Perm s2) (hkeys : (s1.map orderingKey).Nodup) :
    (sales_fact s1).map (fun r => r.sales_key) = List.range' 1 s1.length ∧
    sales_fact s1 = sales_fact s2 := by
  refine ⟨sales_fact_keys s1, ?_⟩
  unfold sales_fact
  rw [mergeSort_rowLe_perm_invariant hperm hkeys]

/-- A two-row snapshot for exercising `c4`. -/
def c4Row1 : JoinedRow :=
  { order_key := 1, lineitem_key := 1, customer_key := 10, supplier_key := 20,
    date_key := 7, sales_amount := 100, quantity := 5 }

def c4Row2 : JoinedRow :=
  { order_key := 1, lineitem_key := 2, customer_key := 11, supplier_key := 21,
    date_key := 8, sales_amount := 200, quantity := 6 }

/-- C4 witness: a concrete two-row snapshot gets keys `[1, 2]`, and the same
snapshot presented in the opposite row order yields the identical fact
table. -/
theorem c4_sales_fact_keys_gapfree_deterministic_witness :
    (sales_fact [c4Row2, c4Row1]).map (fun r => r.sales_key) =
      List.range' 1 [c4Row2, c4Row1].length ∧
    sales_fact [c4Row2, c4Row1] = sales_fact [c4Row1, c4Row2] :=
  c4_sales_fact_keys_gapfree_deterministic [c4Row2, c4Row1] [c4Row1, c4Row2]
    (by decide) (by decide)

/-! ## Fine-Grained Security (lab 005, lines 282-329)

Security functions are created with `CREATE OR REPLACE FUNCTION`
(lines 282-293); the two ABAC policies are created with a plain
`CREATE POLICY` — no `OR REPLACE` (lines 298-321). -/

/-- An account principal with its group memberships. -/
structure Principal where
  name : String
  groups : List String
deriving DecidableEq, Repr

/-- `IS_ACCOUNT_GROUP_MEMBER(g)` evaluated for a principal. -/
def isAccountGroupMember (g : String) (p : Principal) : Bool :=
  decide (g ∈ p.groups)

/-- `filter_nation(nation) = IF(IS_ACCOUNT_GROUP_MEMBER('geo'), true,
nation IN ("UNITED STATES", "CANADA"))` (lab 005, lines 282-285). -/
def filter_nation (p : Principal) (nation : String) : Bool :=
  if isAccountGroupMember "geo" p then true
  else decide (nation = "UNITED STATES") || decide (nation = "CANADA")

/-- `mask_address(address) = IF(IS_ACCOUNT_GROUP_MEMBER('hr_admin'),
address, "XXX Masked Address")` (lab 005, lines 290-293). -/
def mask_address (p : Principal) (address : String) : String :=
  if isAccountGroupMember "hr_admin" p then address else "XXX Masked Address"

inductive PolicyKind
  | rowFilter
  | columnMask
deriving DecidableEq, Repr

/-- A `CREATE POLICY` definition: named binding of a security function to a
column-match rule (by tag, optionally tag value) and a principal set. -/
structure Policy where
  name : String
  onSchema : String × String
  kind : PolicyKind
  functionRef : String
  principal : String
  matchTag : String
  matchTagValue : Option String
deriving DecidableEq, Repr

/-- Security objects of the metastore state. -/
structure SecState where
  functions : List String
  policies : List Policy
deriving DecidableEq, Repr

inductive SecError
  | policyAlreadyExists
deriving DecidableEq, Repr

/-- `CREATE OR REPLACE FUNCTION name ...`: registers the function,
replacing any existing definition; never errors on an existing name. -/
def createOrReplaceFunction (n : String) (st : SecState) : SecState :=
  { st with functions := if n ∈ st.functions then st.functions else n :: st.functions }

/-- `CREATE POLICY name ...` (no `OR REPLACE`): errors when a policy with
the same name already exists on the securable. -/
def createPolicy (p : Policy) (st : SecState) : Except SecError SecState :=
  if p.name ∈ st.policies.map Policy.name then .error .policyAlreadyExists
  else .ok { st with policies := p :: st.policies }

/-- The `nation_filter` policy of lab 005, lines 298-307. -/
def nation_filter_policy (cat sch : String) : Policy :=
  { name := "nation_filter", onSchema := (cat, sch), kind := .rowFilter,
    functionRef := "filter_nation", principal := "account users",
    matchTag := "uc_geo", matchTagValue := none }

/-- The `mask_address` policy of lab 005, lines 312-321. -/
def mask_address_policy (cat sch : String) : Policy :=
  { name := "mask_address", onSchema := (cat, sch), kind := .columnMask,
    functionRef := "mask_address", principal := "account users",
    matchTag := "uc_pii", matchTagValue := some "address" }

/-- Security state after lab 005 has defined both functions and created
both policies once. -/
def c5StateAfterFirstRun : SecState :=
  { functions := ["mask_address", "filter_nation"],
    policies := [mask_address_policy "jdoe" "sales",
                 nation_filter_policy "jdoe" "sales"] }

/-- C5 counterexample: re-issuing the lab's `CREATE POLICY` statements when
the policy names already exist raises a duplicate-policy error — the
statements carry no `OR REPLACE`, so `define_policy` does not have
create-or-replace semantics. -/
theorem c5_counterexample :
    createPolicy (nation_filter_policy "jdoe" "sales") c5StateAfterFirstRun =
      .error .policyAlreadyExists ∧
    createPolicy (mask_address_policy "jdoe" "sales") c5StateAfterFirstRun =
      .error .policyAlreadyExists := by
  constructor <;> rfl

/-- C5 amended: the lab's `CREATE POLICY` statements (for both the
row-filter policy and the column-mask policy) have plain create semantics:
creation succeeds when the policy name is absent, and raises a
duplicate-policy error when the name already exists; only the security
functions are created with `OR REPLACE` (replacing silently). -/
theorem c5_define_policy_plain_create (p : Policy) (st : SecState) :
    (p.name ∉ st.policies.map Policy.name →
      createPolicy p st = .ok { st with policies := p :: st.policies }) ∧
    (∀ st', createPolicy p st = .ok st' →
      createPolicy p st' = .error .policyAlreadyExists) ∧
    (∀ n, createOrReplaceFunction n (createOrReplaceFunction n st) =
      createOrReplaceFunction n st) := by
  refine ⟨fun h => by simp [createPolicy, h], ?_, ?_⟩
  · intro st' h
    by_cases hm : p.name ∈ st.policies.map Policy.name
    · simp [createPolicy, hm] at h
    · simp only [createPolicy, if_neg hm, Except.ok.injEq] at h
      subst h
      simp [createPolicy]
  · intro n
    by_cases hm : n ∈ st.functions
    · simp [createOrReplaceFunction, hm]
    · simp [createOrReplaceFunction, hm]

/-- C5 witness: creating `nation_filter` on an empty security state
succeeds; creating it again on the resulting state raises the
duplicate-policy error; re-creating the `filter_nation` function is silent.
-/
theorem c5_define_policy_plain_create_witness :
    createPolicy (nation_filter_policy "jdoe" "sales") ⟨[], []⟩ =
      .ok ⟨[], [nation_filter_policy "jdoe" "sales"]⟩ ∧
    createPolicy (nation_filter_policy "jdoe" "sales")
        ⟨[], [nation_filter_policy "jdoe" "sales"]⟩ =
      .error .policyAlreadyExists ∧
    createOrReplaceFunction "filter_nation"
        (createOrReplaceFunction "filter_nation" ⟨[], []⟩) =
      createOrReplaceFunction "filter_nation" ⟨[], []⟩ := by
  have h := c5_define_policy_plain_create (nation_filter_policy "jdoe" "sales")
    (⟨[], []⟩ : SecState)
  exact ⟨h.1 (by decide), h.2.1 _ (h.1 (by decide)), h.2.2 "filter_nation"⟩

/-- A row of the suppliers table as read through the `nation_filter` policy
(its `uc_geo`-tagged column is `n_name`, lab 005, line 329). -/
structure SupplierRow where
  s_suppkey : Int
  n_name : String
  s_address : String
deriving DecidableEq, Repr

/-- A read through the `nation_filter` row-filter policy: only rows whose
tagged nation column satisfies `filter_nation` for the reading principal are
returned. -/
def rowFilteredRead (p : Principal) (rows : List SupplierRow) : List SupplierRow :=
  rows.filter fun r => filter_nation p r.n_name

/-- C6: for every principal and input snapshot, a read through the
`nation_filter` row-filter policy returns a sublist of the unfiltered read:
the visible row set is shrunk or preserved, never expanded. -/
theorem c6_row_filter_never_expands (p : Principal) (rows : List SupplierRow) :
    List.Sublist (rowFilteredRead p rows) rows ∧
    (rowFilteredRead p rows).length ≤ rows.length := by
  have h : List.Sublist (rowFilteredRead p rows) rows := List.filter_sublist rows
  exact ⟨h, h.length_le⟩

/-- Declared column of a table schema: name and data type. -/
structure ColumnSpec where
  colName : String
  dtype : String
deriving DecidableEq, Repr

/-- A row of the customers table; `c_address` carries the tag
`uc_pii = 'address'` (lab 005, line 326), so the `mask_address` policy
applies to it. -/
structure CustomerRow where
  c_custkey : Int
  c_address : String
deriving DecidableEq, Repr

/-- The customers table: declared schema plus rows. -/
structure CustomersTable where
  schema : List ColumnSpec
  rows : List CustomerRow
deriving DecidableEq, Repr

/-- A read through the `mask_address` column-mask policy: the tagged
column's values are passed through `mask_address`; the declared schema is
untouched (the mask function maps string to string). -/
def applyAddressMask (p : Principal) (t : CustomersTable) : CustomersTable :=
  { schema := t.schema,
    rows := t.rows.map fun r => { r with c_address := mask_address p r.c_address } }

/-- A principal outside the `hr_admin` group. -/
def c7NonPrivileged : Principal :=
  { name := "jdoe@example.com", groups := ["account users"] }

/-- C7 counterexample: for a non-privileged principal the mask returns the
constant string, so on the address value "XXX Masked Address" it returns
the input unchanged — refuting "returns a value different from the input
for every address value". -/
theorem c7_counterexample :
    mask_address c7NonPrivileged "XXX Masked Address" = "XXX Masked Address" := by
  rfl

/-- C7 amended: for non-members of `hr_admin` the mask returns the fixed
string "XXX Masked Address" — hence a value different from the input for
every address other than that constant — while `hr_admin` members get the
input unchanged, and applying the mask never alters the table's declared
schema (column names and types unchanged). -/
theorem c7_column_mask (p q : Principal) (a : String) (t : CustomersTable)
    (hp : isAccountGroupMember "hr_admin" p = false)
    (hq : isAccountGroupMember "hr_admin" q = true) :
    mask_address p a = "XXX Masked Address" ∧
    (a ≠ "XXX Masked Address" → mask_address p a ≠ a) ∧
    mask_address q a = a ∧
    (applyAddressMask p t).schema = t.schema ∧
    (applyAddressMask q t).schema = t.schema := by
  refine ⟨by simp [mask_address, hp], ?_, by simp [mask_address, hq], rfl, rfl⟩
  intro hne
  simp [mask_address, hp]
  exact fun h => hne h.symm

/-- A concrete customers table to exercise `c7_column_mask`. -/
def c7Table : CustomersTable :=
  { schema := [⟨"c_custkey", "bigint"⟩, ⟨"c_address", "string"⟩],
    rows := [⟨1, "42 Main St"⟩] }

/-- C7 witness: with a non-privileged reader the address comes back as the
constant mask (different from "42 Main St"); with an `hr_admin` reader it is
unchanged; the declared schema is identical in both cases. -/
theorem c7_column_mask_witness :
    mask_address c7NonPrivileged "42 Main St" = "XXX Masked Address" ∧
    mask_address c7NonPrivileged "42 Main St" ≠ "42 Main St" ∧
    mask_address ⟨"hr@example.com", ["hr_admin"]⟩ "42 Main St" = "42 Main St" ∧
    (applyAddressMask c7NonPrivileged c7Table).schema = c7Table.schema := by
  have h := c7_column_mask c7NonPrivileged ⟨"hr@example.com", ["hr_admin"]⟩
    "42 Main St" c7Table (by decide) (by decide)
  exact ⟨h.1, h.2.1 (by decide), h.2.2.1, h.2.2.2.1⟩

/-! ## Access Control (lab 004, lines 73-135)

Grant state is the set of `(permission, object, principal)` triples held by
the metastore. `GRANT` adds a triple (idempotently at the platform),
`REVOKE` removes it, `SHOW GRANTS ON obj` lists the triples on `obj`. -/

inductive Permission
  | USE_CATALOG
  | BROWSE
  | USE_SCHEMA
  | SELECT
  | READ_VOLUME
deriving DecidableEq, Repr

/-- A securable object reference. -/
inductive SecObject
  | catalog (name : String)
  | schema (cat name : String)
  | table (cat sch name : String)
  | volume (cat sch name : String)
deriving DecidableEq, Repr

abbrev GrantEntry := Permission × SecObject × String

abbrev GrantState := List GrantEntry

/-- `GRANT perm ON obj TO principal`. -/
def grant (perm : Permission) (obj : SecObject) (principal : String)
    (st : GrantState) : GrantState :=
  if (perm, obj, principal) ∈ st then st else (perm, obj, principal) :: st

/-- `REVOKE perm ON obj FROM principal`. -/
def revoke (perm : Permission) (obj : SecObject) (principal : String)
    (st : GrantState) : GrantState :=
  st.filter fun g => g ≠ (perm, obj, principal)

/-- `SHOW GRANTS ON obj`. -/
def list_grants (obj : SecObject) (st : GrantState) : GrantState :=
  st.filter fun g => g.2.1 = obj

/-- C8: for every object, group and starting grant state, granting SELECT
to the group and then revoking SELECT from it leaves no SELECT entry for
the group: `list_grants` on the object shows no SELECT row for it. -/
theorem c8_grant_revoke_cancels (obj : SecObject) (g : String) (st : GrantState) :
    (Permission.SELECT, obj, g) ∉
      list_grants obj (revoke .SELECT obj g (grant .SELECT obj g st)) := by
  intro hmem
  simp [list_grants, revoke, List.mem_filter] at hmem

theorem mem_grant_self {p : Permission} {o : SecObject} {u : String}
    {st : GrantState} : (p, o, u) ∈ grant p o u st := by
  unfold grant
  split
  · assumption
  · exact List.mem_cons_self _ _

theorem mem_grant_of_mem {x : GrantEntry} {p : Permission} {o : SecObject}
    {u : String} {st : GrantState} (h : x ∈ st) : x ∈ grant p o u st := by
  unfold grant
  split
  · exact h
  · exact List.mem_cons_of_mem _ h

theorem mem_revoke_of_ne {x : GrantEntry} {p : Permission} {o : SecObject}
    {u : String} {st : GrantState} (h : x ∈ st) (hne : x ≠ (p, o, u)) :
    x ∈ revoke p o u st :=
  List.mem_filter.mpr ⟨h, by simp [hne]⟩

/-- The full grant/revoke sequence of lab 004 in source order: grants at
lines 73, 74, 79, 84, 85, 90, then revokes at lines 122, 123, 128, 129,
134, 135. The two catalog-level grants go to `user`; every revoke names
the principal "account users". -/
def lab004Sequence (cat sch user : String) (st : GrantState) : GrantState :=
  st |> grant .USE_CATALOG (.catalog cat) user
     |> grant .BROWSE (.catalog cat) user
     |> grant .USE_SCHEMA (.schema cat sch) "account users"
     |> grant .SELECT (.schema cat sch) "account users"
     |> grant .SELECT (.table cat sch "sales_fact") "account users"
     |> grant .READ_VOLUME (.volume cat sch "tracking") "account users"
     |> revoke .READ_VOLUME (.volume cat sch "tracking") "account users"
     |> revoke .SELECT (.table cat sch "sales_fact") "account users"
     |> revoke .SELECT (.schema cat sch) "account users"
     |> revoke .USE_SCHEMA (.schema cat sch) "account users"
     |> revoke .BROWSE (.catalog cat) "account users"
     |> revoke .USE_CATALOG (.catalog cat) "account users"

/-- C9: after the full grant/revoke sequence of lab 004, the catalog-level
permissions USE_CATALOG and BROWSE granted to the current user remain in
effect: the catalog-level revokes name the distinct principal
"account users", so no catalog-level grant of the run is revoked from its
own grantee. -/
theorem c9_catalog_grants_survive (cat sch user : String) (st : GrantState)
    (huser : user ≠ "account users") :
    (Permission.USE_CATALOG, SecObject.catalog cat, user) ∈
      lab004Sequence cat sch user st ∧
    (Permission.BROWSE, SecObject.catalog cat, user) ∈
      lab004Sequence cat sch user st := by
  unfold lab004Sequence
  constructor
  · exact mem_revoke_of_ne (mem_revoke_of_ne (mem_revoke_of_ne (mem_revoke_of_ne
      (mem_revoke_of_ne (mem_revoke_of_ne (mem_grant_of_mem (mem_grant_of_mem
      (mem_grant_of_mem (mem_grant_of_mem (mem_grant_of_mem mem_grant_self)))))
      (by simp)) (by simp)) (by simp)) (by simp)) (by simp))
      (by simp [huser])
  · exact mem_revoke_of_ne (mem_revoke_of_ne (mem_revoke_of_ne (mem_revoke_of_ne
      (mem_revoke_of_ne (mem_revoke_of_ne (mem_grant_of_mem (mem_grant_of_mem
      (mem_grant_of_mem (mem_grant_of_mem mem_grant_self))))
      (by simp)) (by simp)) (by simp)) (by simp)) (by simp [huser]))
      (by simp)

/-- C9 witness: for the concrete user "jdoe@example.com" (catalog "jdoe"),
both catalog-level grants survive the whole lab 004 sequence started from
an empty grant state. -/
theorem c9_catalog_grants_survive_witness :
    (Permission.USE_CATALOG, SecObject.catalog "jdoe", "jdoe@example.com") ∈
      lab004Sequence "jdoe" "sales" "jdoe@example.com" [] ∧
    (Permission.BROWSE, SecObject.catalog "jdoe", "jdoe@example.com") ∈
      lab004Sequence "jdoe" "sales" "jdoe@example.com" [] :=
  c9_catalog_grants_survive "jdoe" "sales" "jdoe@example.com" [] (by decide)

/-! ## Table lifecycle (lab 003, lines 60-228)

Managed tables are created with `CREATE OR REPLACE TABLE`; `DROP TABLE`
moves a table to the metastore's dropped list (keyed by its
platform-generated table id); `UNDROP TABLE name` restores the most
recently dropped table of that name; `UNDROP TABLE WITH ID id` restores the
dropped table with that exact id and errors when no dropped table carries
it. The final statement of the lab passes the unedited placeholder string
as the id. -/

structure TableEntry where
  tblName : String
  tblId : String
deriving DecidableEq, Repr

/-- Platform-generated table identifier for the n-th created table. -/
def genTableId (n : Nat) : String := "tableId-" ++ Nat.repr n

structure TblState where
  nextId : Nat
  tables : List TableEntry
  dropped : List TableEntry
deriving DecidableEq, Repr

inductive TblError
  | tableNotFound
  | tableAlreadyExists
  | noDroppedTableWithId
deriving DecidableEq, Repr

inductive TblStmt
  | createOrReplaceTable (name : String)
  | queryTable (name : String)
  | dropTable (name : String)
  | undropTable (name : String)
  | undropTableWithId (ident : String)
  | showTables
deriving DecidableEq, Repr

/-- Semantics of one table statement against the metastore. -/
def execTbl (st : TblState) : TblStmt → Except TblError TblState
  | .createOrReplaceTable n =>
    if st.tables.any (fun t => t.tblName = n) then .ok st
    else .ok { st with nextId := st.nextId + 1,
                       tables := ⟨n, genTableId st.nextId⟩ :: st.tables }
  | .queryTable n =>
    if st.tables.any (fun t => t.tblName = n) then .ok st
    else .error .tableNotFound
  | .dropTable n =>
    match st.tables.find? (fun t => t.tblName = n) with
    | some e => .ok { st with tables := st.tables.erase e,
                              dropped := e :: st.dropped }
    | none => .error .tableNotFound
  | .undropTable n =>
    if st.tables.any (fun t => t.tblName = n) then .error .tableAlreadyExists
    else
      match st.dropped.find? (fun t => t.tblName = n) with
      | some e => .ok { st with tables := e :: st.tables,
                                dropped := st.dropped.erase e }
      | none => .error .tableNotFound
  | .undropTableWithId i =>
    match st.dropped.find? (fun t => t.tblId = i) with
    | some e => .ok { st with tables := e :: st.tables,
                              dropped := st.dropped.erase e }
    | none => .error .noDroppedTableWithId
  | .showTables => .ok st

/-- Run a statement sequence; on a platform error, abort the remaining
sequence and report the state reached together with the error. -/
def runTbl (st : TblState) : List TblStmt → TblState × Option TblError
  | [] => (st, none)
  | s :: rest =>
    match execTbl st s with
    | .ok st' => runTbl st' rest
    | .error e => (st, some e)

/-- The table statements of lab 003 in source order: the six `CREATE OR
REPLACE TABLE`s (lines 60-105), the reads (111-148), the information-schema
display (153), then the drop/undrop section (180-228) ending with
`UNDROP TABLE WITH ID 'update_this_value_with_your_tableId'` (line 222). -/
def lab003Stmts : List TblStmt :=
  [ .createOrReplaceTable "customers",
    .createOrReplaceTable "nations",
    .createOrReplaceTable "orders",
    .createOrReplaceTable "regions",
    .createOrReplaceTable "suppliers",
    .createOrReplaceTable "sales_fact",
    .queryTable "customers",
    .queryTable "suppliers",
    .queryTable "customers",
    .queryTable "suppliers",
    .queryTable "customers",
    .queryTable "suppliers",
    .showTables,
    .dropTable "customers",
    .showTables,
    .undropTable "customers",
    .showTables,
    .dropTable "customers",
    .showTables,
    .showTables,
    .undropTableWithId "update_this_value_with_your_tableId",
    .showTables ]

theorem genTableId_ne_placeholder (n : Nat) :
    genTableId n ≠ "update_this_value_with_your_tableId" := by
  intro h
  have h1 := congrArg (fun s => s.data.head?) h
  simp only [genTableId, String.data_append] at h1
  simp at h1

/-- C10: the table-management sequence terminates with `customers` dropped:
a platform-generated table id never equals the literal placeholder
`update_this_value_with_your_tableId`, the run aborts at the
`UNDROP TABLE WITH ID` statement with a no-such-dropped-table error, the
final state holds no `customers` table, and the read of `customers` that
lab 005 performs next fails. -/
theorem c10_customers_left_dropped :
    (∀ n, genTableId n ≠ "update_this_value_with_your_tableId") ∧
    (runTbl ⟨0, [], []⟩ lab003Stmts).2 = some .noDroppedTableWithId ∧
    "customers" ∉ (runTbl ⟨0, [], []⟩ lab003Stmts).1.tables.map TableEntry.tblName ∧
    execTbl (runTbl ⟨0, [], []⟩ lab003Stmts).1 (.queryTable "customers") =
      .error .tableNotFound := by
  exact ⟨genTableId_ne_placeholder, by decide, by decide, by rfl⟩
